import Mathlib

set_option maxRecDepth 8000

/- Shallow embedding of the trainer-scout repository:
   scripts/analyze_trainer_feedback.py (feedback aggregation and ranking) and
   scripts/generate_outreach.py (outreach-email generation).
   Python floats are idealised as exact rationals, parsed timestamps as
   integers, and Python strings as lists of characters. -/

/-- One normalised survey row, as produced in analyze_trainer_feedback.py
main (lines 405-434): a sequential row id, the Trainer cell, the parsed
creation date, the cleaned numeric score cells (None modelling NaN) and the
raw free-text cells (an association list from column name to the cell, with
None modelling a NaN cell). -/
structure FeedbackRecord where
  row_id : ℕ
  trainer : String
  timestamp : ℤ
  scores : List (Option ℚ)
  texts : List (String × Option (List Char))
deriving DecidableEq

/-- One extracted positive quote, as built by extract_positive_quotes
(lines 55-59 of analyze_trainer_feedback.py). -/
structure Quote where
  row_id : ℕ
  quote : List Char
  source_column : String
deriving DecidableEq

/-- One entry of the trainer_stats list built in main (lines 465-472):
a surviving trainer together with its half means, improvement and the
date-sorted group of records. -/
structure TrainerStats where
  trainer : String
  n_responses : ℕ
  mean_early : ℚ
  mean_late : ℚ
  improvement : ℚ
  group : List FeedbackRecord

/-- One entry of the results list built in main (lines 518-533). -/
structure RankedResult where
  rank : ℕ
  trainer_name : String
  n_responses : ℕ
  improvement_score : ℚ
  mean_early_score : ℚ
  mean_late_score : ℚ
  quotes : List Quote
  case_study_angle : String

/-- Mean of a list of rationals, as numpy mean of a nonempty series. -/
def listMean (l : List ℚ) : ℚ := l.sum / (l.length : ℚ)

/-- Composite score of one record (line 431 of analyze_trainer_feedback.py):
df[actual_score_cols].mean(axis=1, skipna=True) takes the mean over the
present values of the row and yields NaN (here none) when every score cell
is absent. -/
def composite (scores : List (Option ℚ)) : Option ℚ :=
  let present := scores.filterMap id
  if present.isEmpty then none else some (listMean present)

/-- Composite score of a record (the composite_score column). -/
def recComposite (r : FeedbackRecord) : Option ℚ := composite r.scores

/-- Early half of a date-sorted group: group.iloc[:mid_point] with
mid_point = len(group) // 2 (lines 452-453). -/
def earlyHalf (g : List FeedbackRecord) : List FeedbackRecord :=
  g.take (g.length / 2)

/-- Late half of a date-sorted group: group.iloc[mid_point:] (line 454). -/
def lateHalf (g : List FeedbackRecord) : List FeedbackRecord :=
  g.drop (g.length / 2)

/-- Defined composite scores of the early half:
early_half['composite_score'].dropna() (line 457). -/
def earlyScores (g : List FeedbackRecord) : List ℚ :=
  (earlyHalf g).filterMap recComposite

/-- Defined composite scores of the late half:
late_half['composite_score'].dropna() (line 458). -/
def lateScores (g : List FeedbackRecord) : List ℚ :=
  (lateHalf g).filterMap recComposite

/-- Per-trainer processing of one date-sorted group (lines 441-472 of
analyze_trainer_feedback.py): trainers with fewer than 3 responses are
skipped (line 445), the group is split at len // 2, and a stats entry is
appended only when both halves have at least one defined composite score
(line 460); otherwise the trainer is silently dropped, with no error. -/
def processTrainer (trainer : String) (g : List FeedbackRecord) :
    Option TrainerStats :=
  if g.length < 3 then none
  else if (earlyScores g).isEmpty ∨ (lateScores g).isEmpty then none
  else
    some { trainer := trainer
           n_responses := g.length
           mean_early := listMean (earlyScores g)
           mean_late := listMean (lateScores g)
           improvement := listMean (lateScores g) - listMean (earlyScores g)
           group := g }

/-- The trainer_stats list over all grouped cohorts (lines 439-472): only
trainers for which processTrainer succeeds contribute an entry. -/
def trainerStats (groups : List (String × List FeedbackRecord)) :
    List TrainerStats :=
  groups.filterMap (fun p => processTrainer p.1 p.2)

/-- Records list in ascending order of parsed timestamp. -/
def tsSorted (l : List FeedbackRecord) : Prop :=
  List.Pairwise (fun a b => a.timestamp ≤ b.timestamp) l

/-- Contract of group.sort_values('creation_datetime') at line 449 of
analyze_trainer_feedback.py. The call uses the pandas default
kind='quicksort'; pandas documents that only mergesort/stable are stable
algorithms, so the source guarantees exactly that the output is a
permutation of the group ordered by the sort key, with no guarantee on the
relative order of rows whose keys are equal. -/
def sortValuesContract (input output : List FeedbackRecord) : Prop :=
  output.Perm input ∧ tsSorted output

/-- Stability property claimed by the spec: for every timestamp, records
carrying that timestamp appear in the output in their original input
order. -/
def stableTieOrder (input output : List FeedbackRecord) : Prop :=
  ∀ t : ℤ, output.filter (fun r => decide (r.timestamp = t)) =
    input.filter (fun r => decide (r.timestamp = t))

instance (l : List FeedbackRecord) : Decidable (tsSorted l) :=
  inferInstanceAs (Decidable (List.Pairwise _ l))

/-- Python str.strip applied to a list of characters: drop leading and
trailing whitespace (idealising the Python whitespace set by
Char.isWhitespace). -/
def stripChars (l : List Char) : List Char :=
  ((l.dropWhile Char.isWhitespace).reverse.dropWhile Char.isWhitespace).reverse

/-- Python str.lower, idealised characterwise by Char.toLower (the quote
keywords are plain ASCII). -/
def lowerChars (l : List Char) : List Char := l.map Char.toLower

/-- Python startswith on character lists. -/
def leadsWith : List Char → List Char → Bool
  | [], _ => true
  | _ :: _, [] => false
  | a :: as, b :: bs => a = b && leadsWith as bs

/-- Python substring containment (keyword in text) on character lists. -/
def hasSub (needle : List Char) : List Char → Bool
  | [] => leadsWith needle []
  | c :: cs => leadsWith needle (c :: cs) || hasSub needle cs

/-- The fixed positive keyword list of extract_positive_quotes
(lines 42-45 of analyze_trainer_feedback.py). -/
def positiveKeywords : List (List Char) :=
  ["excellent".data, "great".data, "love".data, "helpful".data,
   "enjoyed".data, "beneficial".data, "best".data, "appreciated".data,
   "wonderful".data, "positive".data, "fun".data, "engaging".data,
   "motivated".data, "patient".data, "clear".data, "friendly".data,
   "approachable".data, "flexible".data]

/-- Quote-length limiting of extract_positive_quotes (lines 51-53): text
longer than 200 characters is cut to its first 200 characters with an
ellipsis appended; otherwise it is left unchanged. -/
def truncate200 (l : List Char) : List Char :=
  if 200 < l.length then l.take 200 ++ "...".data else l

/-- Processing of one text cell by extract_positive_quotes (lines 29-59):
a NaN cell (none) and the literals "", "nan" and "-" are skipped, the cell
is stripped, cells shorter than 20 characters are skipped, and the cell
yields a quote exactly when its lowercase form contains one of the positive
keywords as a substring; the retained text is length-limited. -/
def processCell (rid : ℕ) (col : String) (cell : Option (List Char)) :
    Option Quote :=
  match cell with
  | none => none
  | some t =>
    if t = [] ∨ t = "nan".data ∨ t = "-".data then none
    else
      let ts := stripChars t
      if ts.length < 20 then none
      else if positiveKeywords.any (fun k => hasSub k (lowerChars ts)) then
        some { row_id := rid, quote := truncate200 ts, source_column := col }
      else none

/-- extract_positive_quotes (lines 22-61 of analyze_trainer_feedback.py):
for each text column in order, every row of the group is scanned and the
qualifying cells are collected. A column absent from a record's cells is
skipped, matching the `col in df.columns` guard (in a dataframe the columns
are uniform across rows). -/
def extract_positive_quotes (rows : List FeedbackRecord)
    (text_cols : List String) : List Quote :=
  text_cols.flatMap (fun col =>
    rows.filterMap (fun r =>
      match r.texts.lookup col with
      | none => none
      | some cell => processCell r.row_id col cell))

/-- Quote selection of main (lines 504-506): the collected quotes are
sorted descending by text length (Python list.sort with reverse=True, a
stable descending sort) and the first two are kept. -/
def selectQuotes (qs : List Quote) : List Quote :=
  (List.insertionSort (fun a b : Quote => b.quote.length ≤ a.quote.length) qs).take 2

/-- Round-half-to-even on rationals, the rounding mode of the Python
builtin round. -/
def roundHalfEven (q : ℚ) : ℤ :=
  if q - ⌊q⌋ < 1 / 2 then ⌊q⌋
  else if 1 / 2 < q - ⌊q⌋ then ⌊q⌋ + 1
  else if ⌊q⌋ % 2 = 0 then ⌊q⌋ else ⌊q⌋ + 1

/-- Python round(x, d) on the rational idealisation of floats. -/
def roundDec (d : ℕ) (q : ℚ) : ℚ :=
  (roundHalfEven (q * 10 ^ d) : ℚ) / 10 ^ d

/-- Case-study narrative selection of main (lines 509-516 of
analyze_trainer_feedback.py): a step function on the raw, unrounded
improvement, with strict thresholds at 1.0, 0.5 and 0. -/
def caseStudy (improvement : ℚ) : String :=
  if 1 < improvement then
    "Demonstrated exceptional growth in participant satisfaction scores"
  else if 1 / 2 < improvement then
    "Showed strong improvement in training effectiveness and learner engagement"
  else if 0 < improvement then
    "Steady upward trajectory in teaching quality and participant feedback"
  else
    "Maintained consistently high training standards with positive learner outcomes"

/-- Ranking sort of main (line 475): trainer_stats.sort by improvement with
reverse=True, i.e. the stable descending sort by improvement. -/
def sortStats (stats : List TrainerStats) : List TrainerStats :=
  List.insertionSort (fun a b : TrainerStats => b.improvement ≤ a.improvement) stats

/-- Assembly of one results entry (lines 490-533): rank is the 1-based
enumeration index, improvement is rounded to 3 decimals, the half means to
2 decimals, the quotes are extracted from the trainer's sorted group and
the narrative is chosen from the raw improvement. -/
def assemble (text_cols : List String) (rank : ℕ) (st : TrainerStats) :
    RankedResult :=
  { rank := rank
    trainer_name := st.trainer
    n_responses := st.n_responses
    improvement_score := roundDec 3 st.improvement
    mean_early_score := roundDec 2 st.mean_early
    mean_late_score := roundDec 2 st.mean_late
    quotes := selectQuotes (extract_positive_quotes st.group text_cols)
    case_study_angle := caseStudy st.improvement }

/-- Results construction of main (lines 474-533): sort the surviving
trainers by improvement descending, keep the top 2, and assemble each with
its 1-based rank from enumerate(top_2, 1). -/
def buildResults (text_cols : List String) (stats : List TrainerStats) :
    List RankedResult :=
  ((sortStats stats).take 2).enum.map (fun p => assemble text_cols (p.1 + 1) p.2)

/-- Take the part of a character list before the first occurrence of a
separator, as Python s.split(sep)[0]. -/
def splitFirst (sep : Char) (l : List Char) : List Char :=
  l.takeWhile (fun c => c ≠ sep)

/-- Python str.capitalize: first character uppercased, the rest
lowercased. -/
def capitalizeChars : List Char → List Char
  | [] => []
  | c :: cs => Char.toUpper c :: cs.map Char.toLower

/-- extract_first_name of generate_outreach.py (lines 11-18): the part of
the email address before the at sign, then before the first dot, then
before the first underscore, capitalised. -/
def extract_first_name (email : List Char) : List Char :=
  capitalizeChars (splitFirst '_' (splitFirst '.' (splitFirst '@' email)))

/-- One generated outreach email, as assembled by generate_email of
generate_outreach.py (lines 58-66). The generated_at wall-clock stamp is
out of the embedding's scope. -/
structure EmailData where
  trainer_name : List Char
  trainer_email : List Char
  email_subject : List Char
  email_body : List Char
  evidence_quote : List Char
  evidence_row_id : ℕ

/-- The templated email body of generate_email (lines 34-56 of
generate_outreach.py), embedding the greeting name and the evidence
quote. -/
def emailBody (first_name evidence_quote : List Char) : List Char :=
  "Hi ".data ++ first_name ++ ",\n\nI wanted to reach out personally because I've been reviewing our trainer feedback data and your name kept coming up in a really positive way.\n\nOver the past few months, we've seen strong improvement in your training scores and the feedback from learners has been genuinely impressive. Here's one that really stood out to me:\n\n\"".data ++ evidence_quote ++ "\"\n\nThat kind of feedback tells us you're doing something right, and we'd love to capture and share what's working for you.\n\nWould you be up for helping us with two quick things?\n\n1. A short testimonial quote from you (just a sentence or two about your experience as a trainer with us)\n2. Either a 15-20 min chat or a quick written Q&A where we can learn more about your approach to training\n\nWe're building out some case studies and best practices to help other trainers, and your insights would be really valuable.\n\nJust reply to this email and let me know if you're interested. No pressure if you're swamped — I totally get it.\n\nThanks for being such a great part of the team!\n\nBest,\n[Your name]".data

/-- generate_email of generate_outreach.py (lines 21-66): the greeting name
is derived from the trainer identity, and the evidence quote is read as
trainer_data['quotes'][0] with no emptiness guard, so an empty quotes
sequence raises IndexError (modelled by none); every record with at least
one quote yields the templated message. -/
def generate_email (t : RankedResult) : Option EmailData :=
  match t.quotes with
  | [] => none
  | q :: _ =>
    let first_name := extract_first_name t.trainer_name.data
    some { trainer_name := first_name
           trainer_email := t.trainer_name.data
           email_subject :=
             "Your training impact is showing up in the feedback, ".data ++
               first_name ++ "!".data
           email_body := emailBody first_name q.quote
           evidence_quote := q.quote
           evidence_row_id := q.row_id }

instance : IsTotal TrainerStats (fun a b : TrainerStats => b.improvement ≤ a.improvement) :=
  ⟨fun a b => le_total b.improvement a.improvement⟩

instance : IsTrans TrainerStats (fun a b : TrainerStats => b.improvement ≤ a.improvement) :=
  ⟨fun _ _ _ h1 h2 => le_trans h2 h1⟩

/-- Round-half-to-even never goes below the floor. -/
lemma roundHalfEven_ge_floor (q : ℚ) : ⌊q⌋ ≤ roundHalfEven q := by
  unfold roundHalfEven
  split_ifs <;> omega

/-- Round-half-to-even never exceeds the floor plus one. -/
lemma roundHalfEven_le_floor_add_one (q : ℚ) : roundHalfEven q ≤ ⌊q⌋ + 1 := by
  unfold roundHalfEven
  split_ifs <;> omega

/-- Round-half-to-even is monotone. -/
lemma roundHalfEven_mono {a b : ℚ} (h : a ≤ b) :
    roundHalfEven a ≤ roundHalfEven b := by
  have hf : ⌊a⌋ ≤ ⌊b⌋ := Int.floor_mono h
  rcases eq_or_lt_of_le hf with heq | hlt
  · have hfr : a - (⌊a⌋ : ℚ) ≤ b - (⌊b⌋ : ℚ) := by
      rw [← heq]
      exact sub_le_sub_right h _
    unfold roundHalfEven
    rw [← heq]
    rw [← heq] at hfr
    split_ifs <;> first | omega | linarith
  · calc roundHalfEven a ≤ ⌊a⌋ + 1 := roundHalfEven_le_floor_add_one a
      _ ≤ ⌊b⌋ := by omega
      _ ≤ roundHalfEven b := roundHalfEven_ge_floor b

/-- Rounding to d decimals is monotone. -/
lemma roundDec_mono (d : ℕ) {a b : ℚ} (h : a ≤ b) :
    roundDec d a ≤ roundDec d b := by
  have h10 : (0 : ℚ) < 10 ^ d := by positivity
  unfold roundDec
  rw [div_le_div_iff_of_pos_right h10]
  exact_mod_cast roundHalfEven_mono (mul_le_mul_of_nonneg_right h h10.le)

/-- Records whose composite is undefined contribute nothing to the defined
composite scores of a list. -/
lemma filterMap_recComposite_filter (l : List FeedbackRecord) :
    l.filterMap recComposite =
      (l.filter (fun r => (recComposite r).isSome)).filterMap recComposite := by
  induction l with
  | nil => rfl
  | cons r rs ih =>
    by_cases hc : (recComposite r).isSome
    · rcases Option.isSome_iff_exists.mp hc with ⟨v, hv⟩
      simp [List.filter_cons, hc, List.filterMap_cons, hv, ih]
    · have hn : recComposite r = none := Option.not_isSome_iff_eq_none.mp hc
      simp [List.filter_cons, hc, List.filterMap_cons, hn, ih]

/-- Convenience builder for concrete records used in the concrete
instances below. -/
def mkRec (i : ℕ) (t : String) (ts : ℤ) (scores : List (Option ℚ)) :
    FeedbackRecord :=
  { row_id := i, trainer := t, timestamp := ts, scores := scores, texts := [] }

/-- A ranked entry whose quotes sequence is empty. -/
def c1Empty : RankedResult :=
  { rank := 1, trainer_name := "anna_w@example.org", n_responses := 3,
    improvement_score := 1, mean_early_score := 2, mean_late_score := 3,
    quotes := [], case_study_angle := "x" }

/-- A quote usable as outreach evidence. -/
def c1Quote : Quote :=
  { row_id := 5,
    quote := "The sessions were excellent and helpful".data,
    source_column := "3.12" }

/-- The same ranked entry with one quote present. -/
def c1Full : RankedResult := { c1Empty with quotes := [c1Quote] }

/-- Two records sharing one timestamp, in input order. -/
def c2a : FeedbackRecord := mkRec 1 "T" 5 []

/-- Second record with the same timestamp as c2a. -/
def c2b : FeedbackRecord := mkRec 2 "T" 5 []

/-- Two records with distinct timestamps, already in ascending order. -/
def c2In : List FeedbackRecord := [mkRec 1 "T" 1 [], mkRec 2 "T" 2 []]

/-- A cohort of two valid records only. -/
def wG2 : List FeedbackRecord := [mkRec 1 "B" 1 [some 4], mkRec 2 "B" 2 [some 5]]

/-- A cohort of three records whose early half has no defined composite. -/
def wG3bad : List FeedbackRecord :=
  [mkRec 1 "C" 1 [none, none], mkRec 2 "C" 2 [some 4], mkRec 3 "C" 3 [some 5]]

/-- A cohort of three records with defined composites everywhere. -/
def wG3ok : List FeedbackRecord :=
  [mkRec 1 "A" 1 [some 2], mkRec 2 "A" 2 [some 3], mkRec 3 "A" 3 [some 4]]

/-- A surviving trainer-stats entry with integral fields. -/
def wStat : TrainerStats :=
  { trainer := "T", n_responses := 3, mean_early := 2, mean_late := 3,
    improvement := 1, group := [] }

/-- A free-text cell in which only the keyword appreciated occurs, and only
inside the longer word appreciatedly. -/
def apprecText : List Char := "This was appreciatedly received by them".data

/-- First text column cell of the C10 record. -/
def c10TextA : List Char :=
  "The trainer was excellent and very helpful throughout".data

/-- Second text column cell of the C10 record, longer than the first. -/
def c10TextB : List Char :=
  "Great pace and engaging, I enjoyed every session of this course".data

/-- One record carrying qualifying text in two distinct text columns. -/
def c10Rec : FeedbackRecord :=
  { row_id := 7, trainer := "T", timestamp := 1, scores := [],
    texts := [("3.12 liked", some c10TextA), ("3.13 other", some c10TextB)] }

/-- The two text columns of the C10 record. -/
def c10Cols : List String := ["3.12 liked", "3.13 other"]

/-- Quote produced from the appreciatedly cell. -/
def wQuote : Quote :=
  { row_id := 3, quote := truncate200 (stripChars apprecText),
    source_column := "c" }

/-- Claim C1: the outreach generator reads quotes[0] with no emptiness
guard (generate_outreach.py lines 27-28), so a ranked record whose quotes
sequence is empty makes generate_email fail with IndexError (modelled by
none) instead of producing a message with no evidence line; with at least
one quote the templated message is produced. -/
theorem C1_outreach_empty_quotes :
    c1Empty.quotes = [] ∧ generate_email c1Empty = none ∧
    c1Full.quotes = [c1Quote] ∧ (generate_email c1Full).isSome = true :=
  ⟨rfl, rfl, rfl, rfl⟩

/-- Claim C4: with mid = floor(n/2), the early half is the records at
indices [0, mid) and the late half those at [mid, n); for even n both
halves have n/2 records, for odd n the late half has one more, and for
n = 3 the split is 1 and 2. -/
theorem C4_half_split (g : List FeedbackRecord) :
    earlyHalf g ++ lateHalf g = g
  ∧ (earlyHalf g).length = g.length / 2
  ∧ (lateHalf g).length = g.length - g.length / 2
  ∧ (∀ i, i < g.length / 2 → (earlyHalf g)[i]? = g[i]?)
  ∧ (∀ i, (lateHalf g)[i]? = g[g.length / 2 + i]?)
  ∧ (g.length % 2 = 0 →
      (earlyHalf g).length = g.length / 2 ∧ (lateHalf g).length = g.length / 2)
  ∧ (g.length % 2 = 1 → (lateHalf g).length = (earlyHalf g).length + 1)
  ∧ (g.length = 3 → (earlyHalf g).length = 1 ∧ (lateHalf g).length = 2) := by
  have hT : (earlyHalf g).length = g.length / 2 := by
    simp only [earlyHalf, List.length_take]
    omega
  have hD : (lateHalf g).length = g.length - g.length / 2 := by
    simp only [lateHalf, List.length_drop]
  refine ⟨List.take_append_drop _ _, hT, hD, ?_, ?_, ?_, ?_, ?_⟩
  · intro i hi
    simp [earlyHalf, List.getElem?_take, hi]
  · intro i
    simp [lateHalf, List.getElem?_drop]
  · intro h
    omega
  · intro h
    omega
  · intro h
    omega

/-- Witness for C4 at a concrete three-record cohort. -/
theorem C4_witness :
    (wG3ok.length % 2 = 1 ∧
      (lateHalf wG3ok).length = (earlyHalf wG3ok).length + 1)
  ∧ (wG3ok.length = 3 ∧ (earlyHalf wG3ok).length = 1 ∧ (lateHalf wG3ok).length = 2)
  ∧ (0 < wG3ok.length / 2 ∧ (earlyHalf wG3ok)[0]? = wG3ok[0]?)
  ∧ (wG2.length % 2 = 0 ∧ (earlyHalf wG2).length = wG2.length / 2 ∧
      (lateHalf wG2).length = wG2.length / 2) :=
  ⟨⟨by decide, (C4_half_split wG3ok).2.2.2.2.2.2.1 (by decide)⟩,
   ⟨by decide, (C4_half_split wG3ok).2.2.2.2.2.2.2 (by decide)⟩,
   ⟨by decide, (C4_half_split wG3ok).2.2.2.1 0 (by decide)⟩,
   ⟨by decide, (C4_half_split wG2).2.2.2.2.2.1 (by decide)⟩⟩

/-- Claim C5: a trainer with fewer than 3 valid records, or whose early or
late half has no defined composite score, is silently excluded (the
per-trainer step yields none, never a stats entry with a placeholder
improvement, and the total function raises no error), and every ranked
entry comes from a successful per-trainer step. -/
theorem C5_exclusions (t : String) (g : List FeedbackRecord) :
    (g.length < 3 → processTrainer t g = none)
  ∧ (earlyScores g = [] → processTrainer t g = none)
  ∧ (lateScores g = [] → processTrainer t g = none)
  ∧ (∀ st, processTrainer t g = some st →
      3 ≤ g.length ∧ earlyScores g ≠ [] ∧ lateScores g ≠ [] ∧
        st.improvement = listMean (lateScores g) - listMean (earlyScores g))
  ∧ (∀ groups st, st ∈ trainerStats groups →
      ∃ p, p ∈ groups ∧ processTrainer p.1 p.2 = some st) := by
  refine ⟨?_, ?_, ?_, ?_, ?_⟩
  · intro h
    simp [processTrainer, h]
  · intro h
    unfold processTrainer
    split_ifs with h1 h2
    · rfl
    · rfl
    · exact absurd (Or.inl (by simp [h])) h2
  · intro h
    unfold processTrainer
    split_ifs with h1 h2
    · rfl
    · rfl
    · exact absurd (Or.inr (by simp [h])) h2
  · intro st h
    unfold processTrainer at h
    split_ifs at h with h1 h2
    have hne := h2
    rw [not_or] at hne
    injection h with h3
    subst h3
    refine ⟨by omega, ?_, ?_, rfl⟩
    · simpa [List.isEmpty_iff] using hne.1
    · simpa [List.isEmpty_iff] using hne.2
  · intro groups st h
    simpa [trainerStats, List.mem_filterMap] using h

/-- Witness for C5 at a two-record cohort and at a three-record cohort
whose early half has no defined composite. -/
theorem C5_witness :
    (wG2.length < 3 ∧ processTrainer "B" wG2 = none)
  ∧ (earlyScores wG3bad = [] ∧ processTrainer "C" wG3bad = none) :=
  ⟨⟨by decide, (C5_exclusions "B" wG2).1 (by decide)⟩,
   ⟨by decide, (C5_exclusions "C" wG3bad).2.1 (by decide)⟩⟩

/-- Claim C7: the narrative bucket is a step function on the raw,
unrounded improvement with strict thresholds at 1.0, 0.5 and 0, so the
boundary values 1.0, 0.5 and 0 each fall into the next-lower bucket, and
the assembled entry applies it to the unrounded improvement. -/
theorem C7_case_study (imp : ℚ) :
    (1 < imp → caseStudy imp =
      "Demonstrated exceptional growth in participant satisfaction scores")
  ∧ (1 / 2 < imp → imp ≤ 1 → caseStudy imp =
      "Showed strong improvement in training effectiveness and learner engagement")
  ∧ (0 < imp → imp ≤ 1 / 2 → caseStudy imp =
      "Steady upward trajectory in teaching quality and participant feedback")
  ∧ (imp ≤ 0 → caseStudy imp =
      "Maintained consistently high training standards with positive learner outcomes")
  ∧ caseStudy 1 =
      "Showed strong improvement in training effectiveness and learner engagement"
  ∧ caseStudy (1 / 2) =
      "Steady upward trajectory in teaching quality and participant feedback"
  ∧ caseStudy 0 =
      "Maintained consistently high training standards with positive learner outcomes"
  ∧ (∀ (tcols : List String) (rk : ℕ) (st : TrainerStats),
      (assemble tcols rk st).case_study_angle = caseStudy st.improvement) := by
  refine ⟨?_, ?_, ?_, ?_, ?_, ?_, ?_, fun tcols rk st => rfl⟩
  · intro h
    simp [caseStudy, h]
  · intro h1 h2
    rw [caseStudy, if_neg (by linarith), if_pos h1]
  · intro h1 h2
    rw [caseStudy, if_neg (by linarith), if_neg (by linarith), if_pos h1]
  · intro h
    rw [caseStudy, if_neg (by linarith), if_neg (by linarith), if_neg (by linarith)]
  · norm_num [caseStudy]
  · norm_num [caseStudy]
  · norm_num [caseStudy]

/-- Witness for C7 at the representative values 2, 1, 1/2 and 0. -/
theorem C7_witness :
    ((1 : ℚ) < 2 ∧ caseStudy 2 =
      "Demonstrated exceptional growth in participant satisfaction scores")
  ∧ ((1 : ℚ) / 2 < 1 ∧ (1 : ℚ) ≤ 1 ∧ caseStudy 1 =
      "Showed strong improvement in training effectiveness and learner engagement")
  ∧ ((0 : ℚ) < 1 / 2 ∧ (1 : ℚ) / 2 ≤ 1 / 2 ∧ caseStudy (1 / 2) =
      "Steady upward trajectory in teaching quality and participant feedback")
  ∧ ((0 : ℚ) ≤ 0 ∧ caseStudy 0 =
      "Maintained consistently high training standards with positive learner outcomes") :=
  ⟨⟨one_lt_two, (C7_case_study 2).1 one_lt_two⟩,
   ⟨one_half_lt_one, le_refl 1,
     (C7_case_study 1).2.1 one_half_lt_one (le_refl 1)⟩,
   ⟨one_half_pos, le_refl _,
     (C7_case_study (1 / 2)).2.2.1 one_half_pos (le_refl _)⟩,
   ⟨le_refl 0, (C7_case_study 0).2.2.2.1 (le_refl 0)⟩⟩

/-- Claim C8: a trimmed text strictly longer than 200 characters is
replaced by its first 200 characters plus an ellipsis; length exactly 200
or less is left unmodified; and the quote stored by the cell processor is
exactly the length-limited trimmed text. -/
theorem C8_truncation (l : List Char) :
    (l.length ≤ 200 → truncate200 l = l)
  ∧ (200 < l.length → truncate200 l = l.take 200 ++ "...".data)
  ∧ truncate200 (List.replicate 201 'a') = List.replicate 200 'a' ++ "...".data
  ∧ truncate200 (List.replicate 200 'a') = List.replicate 200 'a'
  ∧ (∀ (rid : ℕ) (col : String) (t : List Char) (q : Quote),
      processCell rid col (some t) = some q →
        q.quote = truncate200 (stripChars t)) := by
  refine ⟨?_, ?_, ?_, ?_, ?_⟩
  · intro h
    simp [truncate200, Nat.not_lt.mpr h]
  · intro h
    simp [truncate200, h]
  · norm_num [truncate200, List.take_replicate]
  · norm_num [truncate200]
  · intro rid col t q h
    simp only [processCell] at h
    split_ifs at h
    injection h with h3
    subst h3
    rfl

/-- Witness for C8 at a 201-character text, a 200-character text and a
concrete qualifying cell. -/
theorem C8_witness :
    (200 < (List.replicate 201 'a').length ∧
      truncate200 (List.replicate 201 'a') =
        (List.replicate 201 'a').take 200 ++ "...".data)
  ∧ ((List.replicate 200 'a').length ≤ 200 ∧
      truncate200 (List.replicate 200 'a') = List.replicate 200 'a')
  ∧ (processCell 3 "c" (some apprecText) = some wQuote ∧
      wQuote.quote = truncate200 (stripChars apprecText)) :=
  ⟨⟨by simp, (C8_truncation (List.replicate 201 'a')).2.1 (by simp)⟩,
   ⟨by simp, (C8_truncation (List.replicate 200 'a')).1 (by simp)⟩,
   ⟨rfl, (C8_truncation apprecText).2.2.2.2 3 "c" apprecText wQuote rfl⟩⟩

/-- Claim C3: the composite score is the mean of the present score values,
is undefined exactly when every score cell is absent, and a record with
undefined composite is dropped from both half-mean inputs while the
trainer's n_responses still counts every record of the cohort. -/
theorem C3_composite (t : String) (g : List FeedbackRecord)
    (scores : List (Option ℚ)) :
    (composite scores = none ↔ ∀ s ∈ scores, s = none)
  ∧ (scores.filterMap id ≠ [] →
      composite scores =
        some ((scores.filterMap id).sum / ((scores.filterMap id).length : ℚ)))
  ∧ (3 ≤ g.length → earlyScores g ≠ [] → lateScores g ≠ [] →
      processTrainer t g =
        some { trainer := t
               n_responses := g.length
               mean_early := listMean (earlyScores g)
               mean_late := listMean (lateScores g)
               improvement := listMean (lateScores g) - listMean (earlyScores g)
               group := g })
  ∧ (g.filterMap recComposite =
      (g.filter (fun r => (recComposite r).isSome)).filterMap recComposite) := by
  refine ⟨?_, ?_, ?_, filterMap_recComposite_filter g⟩
  · unfold composite
    by_cases hp : (scores.filterMap id).isEmpty = true
    · rw [if_pos hp]
      have hnil := List.isEmpty_iff.mp hp
      constructor
      · intro _ s hs
        simpa using List.filterMap_eq_nil_iff.mp hnil s hs
      · intro _
        rfl
    · rw [if_neg hp]
      constructor
      · intro h
        exact absurd h (by simp)
      · intro hall
        exact absurd (List.isEmpty_iff.mpr
          (List.filterMap_eq_nil_iff.mpr (by simpa using hall))) hp
  · intro h
    unfold composite
    rw [if_neg (by simpa [List.isEmpty_iff] using h)]
    rfl
  · intro h1 h2 h3
    unfold processTrainer
    rw [if_neg (by omega), if_neg (by simp [List.isEmpty_iff, h2, h3])]

/-- Witness for C3 at a concrete score row with one absent cell and at a
concrete three-record cohort. -/
theorem C3_witness :
    (([(some 2 : Option ℚ), none].filterMap id ≠ []) ∧
      composite [(some 2 : Option ℚ), none] =
        some ((([(some 2 : Option ℚ), none]).filterMap id).sum /
          ((([(some 2 : Option ℚ), none]).filterMap id).length : ℚ)))
  ∧ (3 ≤ wG3ok.length ∧ earlyScores wG3ok ≠ [] ∧ lateScores wG3ok ≠ [] ∧
      processTrainer "A" wG3ok =
        some { trainer := "A"
               n_responses := wG3ok.length
               mean_early := listMean (earlyScores wG3ok)
               mean_late := listMean (lateScores wG3ok)
               improvement :=
                 listMean (lateScores wG3ok) - listMean (earlyScores wG3ok)
               group := wG3ok }) :=
  ⟨⟨by decide, (C3_composite "A" wG3ok [(some 2 : Option ℚ), none]).2.1 (by decide)⟩,
   ⟨by decide, by decide, by decide,
     (C3_composite "A" wG3ok [(some 2 : Option ℚ), none]).2.2.1
       (by decide) (by decide) (by decide)⟩⟩

/-- Claim C9: a text cell yields a quote exactly when it is present, not
empty, not the literal nan, not the literal dash, its stripped length is
at least 20, and its lowercase form contains one of the 18 keywords as a
substring; matching is substring matching, e.g. appreciatedly matches via
appreciated. -/
theorem C9_qualification (rid : ℕ) (col : String) (cell : Option (List Char)) :
    ((processCell rid col cell).isSome = true ↔
      ∃ t, cell = some t ∧ t ≠ [] ∧ t ≠ "nan".data ∧ t ≠ "-".data ∧
        20 ≤ (stripChars t).length ∧
        ∃ k, k ∈ positiveKeywords ∧ hasSub k (lowerChars (stripChars t)) = true)
  ∧ (processCell 9 "c" (some apprecText)).isSome = true
  ∧ hasSub "appreciated".data (lowerChars (stripChars apprecText)) = true := by
  refine ⟨?_, by decide, by decide⟩
  cases cell with
  | none => simp [processCell]
  | some t =>
    simp only [processCell]
    split_ifs with h1 h2 h3
    · constructor
      · intro h
        exact absurd h (by simp)
      · rintro ⟨t', ht', hne, hnan, hdash, _, _⟩
        injection ht' with ht'
        subst ht'
        rcases h1 with h | h | h
        · exact (hne h).elim
        · exact (hnan h).elim
        · exact (hdash h).elim
    · constructor
      · intro h
        exact absurd h (by simp)
      · rintro ⟨t', ht', _, _, _, hlen, _⟩
        injection ht' with ht'
        subst ht'
        omega
    · constructor
      · intro _
        rw [not_or, not_or] at h1
        exact ⟨t, rfl, h1.1, h1.2.1, h1.2.2, by omega,
          (List.any_eq_true).mp h3⟩
      · intro _
        rfl
    · constructor
      · intro h
        exact absurd h (by simp)
      · rintro ⟨t', ht', _, _, _, _, k, hk, hsub⟩
        injection ht' with ht'
        subst ht'
        exact absurd (List.any_eq_true.mpr ⟨k, hk, hsub⟩) h3

/-- Counterexample to C2 as stated: the source sorts each cohort with
pandas sort_values under the default kind='quicksort', which pandas
documents as not stable, so the sort contract admits an output in which
two records with equal timestamps swap their input order. -/
theorem C2_counterexample :
    sortValuesContract [c2a, c2b] [c2b, c2a]
  ∧ ¬ stableTieOrder [c2a, c2b] [c2b, c2a]
  ∧ ¬ (∀ input output, sortValuesContract input output →
        stableTieOrder input output) := by
  have hc : sortValuesContract [c2a, c2b] [c2b, c2a] :=
    ⟨List.Perm.swap c2a c2b [], by decide⟩
  have hn : ¬ stableTieOrder [c2a, c2b] [c2b, c2a] := by
    intro h
    exact absurd (h 5) (by decide)
  exact ⟨hc, hn, fun hAll => hn (hAll _ _ hc)⟩

/-- Claim C2 amended: every output admitted by the cohort sort is a
permutation of the group whose records, and hence whose parsed timestamps,
are in ascending order; the relative order of records with equal
timestamps is not guaranteed. -/
theorem C2_sorted_cohort (input output : List FeedbackRecord)
    (h : sortValuesContract input output) :
    output.Perm input ∧ tsSorted output
  ∧ List.Pairwise (fun x y : ℤ => x ≤ y) (output.map (fun r => r.timestamp))
  ∧ (output.map (fun r => r.timestamp)).Perm
      (input.map (fun r => r.timestamp)) := by
  refine ⟨h.1, h.2, ?_, h.1.map _⟩
  exact List.Pairwise.map _ (fun a b hab => hab) h.2

/-- Witness for C2 amended at a concrete two-record cohort in ascending
timestamp order. -/
theorem C2_witness :
    sortValuesContract c2In c2In ∧
      List.Pairwise (fun x y : ℤ => x ≤ y)
        (c2In.map (fun r => r.timestamp)) :=
  ⟨⟨by decide, by decide⟩,
    (C2_sorted_cohort c2In c2In ⟨by decide, by decide⟩).2.2.1⟩

/-- Claim C10: quote selection does not deduplicate by record; on a
concrete cohort whose single record carries qualifying text in two text
columns, the two retained quotes share the record's row id and come from
two different source columns, the longer first. -/
theorem C10_no_dedup :
    (selectQuotes (extract_positive_quotes [c10Rec] c10Cols)).length = 2
  ∧ (selectQuotes (extract_positive_quotes [c10Rec] c10Cols)).map
      (fun q => q.row_id) = [7, 7]
  ∧ (selectQuotes (extract_positive_quotes [c10Rec] c10Cols)).map
      (fun q => q.source_column) = ["3.13 other", "3.12 liked"]
  ∧ (selectQuotes (extract_positive_quotes [c10Rec] c10Cols)).map
      (fun q => q.quote.length) = [63, 53] := by
  refine ⟨by decide, by decide, by decide, by decide⟩

/-- Claim C6: the final output is the surviving trainers sorted descending
by improvement, truncated to the top 2; each entry's rank equals its
1-based position, ranks are at least 1, and the rounded improvement values
are non-increasing along the output. -/
theorem C6_ranking (text_cols : List String) (stats : List TrainerStats) :
    buildResults text_cols stats =
      ((sortStats stats).take 2).enum.map
        (fun p => assemble text_cols (p.1 + 1) p.2)
  ∧ (sortStats stats).Perm stats
  ∧ List.Pairwise (fun a b : TrainerStats => b.improvement ≤ a.improvement)
      (sortStats stats)
  ∧ (buildResults text_cols stats).length = min 2 stats.length
  ∧ (∀ (i : ℕ) (h : i < (buildResults text_cols stats).length),
      ((buildResults text_cols stats).get ⟨i, h⟩).rank = i + 1)
  ∧ (∀ r, r ∈ buildResults text_cols stats → 1 ≤ r.rank)
  ∧ List.Pairwise
      (fun a b : RankedResult => b.improvement_score ≤ a.improvement_score)
      (buildResults text_cols stats) := by
  have hsorted : List.Pairwise
      (fun a b : TrainerStats => b.improvement ≤ a.improvement)
      (sortStats stats) :=
    List.sorted_insertionSort _ stats
  have htake : List.Pairwise
      (fun a b : TrainerStats => b.improvement ≤ a.improvement)
      ((sortStats stats).take 2) :=
    List.Pairwise.sublist (List.take_sublist 2 _) hsorted
  have hlen2 : (buildResults text_cols stats).length =
      ((sortStats stats).take 2).length := by
    simp [buildResults, List.enum_length]
  have hget : ∀ (i : ℕ) (h : i < (buildResults text_cols stats).length),
      (buildResults text_cols stats).get ⟨i, h⟩ =
        assemble text_cols (i + 1)
          (((sortStats stats).take 2).get ⟨i, hlen2 ▸ h⟩) := by
    intro i h
    simp only [buildResults, List.get_eq_getElem, List.getElem_map,
      List.getElem_enum]
  refine ⟨rfl, List.perm_insertionSort _ stats, hsorted, ?_, ?_, ?_, ?_⟩
  · simp [buildResults, sortStats, List.enum_length, List.length_take,
      List.length_insertionSort]
  · intro i h
    rw [hget i h]
    rfl
  · intro r hr
    simp only [buildResults, List.mem_map] at hr
    obtain ⟨p, _, rfl⟩ := hr
    exact Nat.succ_le_succ (Nat.zero_le _)
  · rw [List.pairwise_iff_get]
    intro i j hij
    rw [hget i.1 i.2, hget j.1 j.2]
    exact roundDec_mono 3
      (List.pairwise_iff_get.mp htake ⟨i.1, hlen2 ▸ i.2⟩ ⟨j.1, hlen2 ▸ j.2⟩ hij)

/-- Witness for C6 at a concrete one-trainer stats list. -/
theorem C6_witness :
    0 < (buildResults [] [wStat]).length ∧
      ((buildResults [] [wStat]).get ⟨0, by decide⟩).rank = 0 + 1 :=
  ⟨by decide, (C6_ranking [] [wStat]).2.2.2.2.1 0 (by decide)⟩
